import Mathlib

/-!
Shallow embedding of the tenant resource lifecycle and job orchestration layer
of the RAG admin backend.  Pure helpers are translated directly from the
JavaScript source; request handlers become pure functions over the request
data together with explicit outcomes for the external collaborators
(identity store reads and writes, the scrape or update subprocess, and the
HTTP call to the bot service), and they return both the HTTP response and a
trace of the side effects they performed.
-/

/-- A JavaScript value as it can appear in a request body field. -/
inductive JsValue where
  | undef
  | null
  | bool (b : Bool)
  | str (s : String)
  | num (n : Int)
  deriving Repr, DecidableEq

/-- JavaScript truthiness of an optional string (`undefined` and `""` are falsy). -/
def strFalsy : Option String → Bool
  | none => true
  | some s => s == ""

def strTruthy (v : Option String) : Bool := !(strFalsy v)

/-- JavaScript `String.prototype.trim`, as a structurally recursive
function on the character list so that concrete strings evaluate. -/
def jsTrim (s : String) : String :=
  String.mk (((s.data.dropWhile Char.isWhitespace).reverse.dropWhile
    Char.isWhitespace).reverse)

/-- JavaScript `String.prototype.toLowerCase`. -/
def jsToLower (s : String) : String :=
  String.mk (s.data.map Char.toLower)

/-- JavaScript `x || d` for an optional string `x` and a default `d`. -/
def orDefault (v : Option String) (d : String) : String :=
  if strFalsy v then d else v.getD ""

/-- `toBooleanOrUndefined` from the scrape controller: boolean values pass
through, strings are trimmed and lowercased and matched against the accepted
positive and negative forms, and everything else maps to `undefined`. -/
def toBooleanOrUndefined : JsValue → Option Bool
  | JsValue.undef => none
  | JsValue.null => none
  | JsValue.bool b => some b
  | JsValue.str s =>
    let normalized := jsToLower (jsTrim s)
    if normalized ∈ ["true", "1", "yes", "on"] then some true
    else if normalized ∈ ["false", "0", "no", "off"] then some false
    else none
  | JsValue.num _ => none

/-- Leading decimal digits of a character list, as in `parseInt` radix 10. -/
def leadingDigits : List Char → List Nat
  | [] => []
  | c :: cs => if c.isDigit then (c.toNat - 48) :: leadingDigits cs else []

/-- `Number.parseInt(s, 10)`: optional sign followed by leading digits;
`none` models `NaN`. -/
def jsParseInt (s : String) : Option Int :=
  let t := jsTrim s
  let signed : Int × List Char :=
    match t.data with
    | '-' :: cs => (-1, cs)
    | '+' :: cs => (1, cs)
    | cs => (1, cs)
  let ds := leadingDigits signed.2
  if ds.isEmpty then none
  else some (signed.1 * Int.ofNat (ds.foldl (fun acc d => acc * 10 + d) 0))

/-- `parseIntegerOrUndefined` from the scrape controller. -/
def parseIntegerOrUndefined : JsValue → Option Int
  | JsValue.undef => none
  | JsValue.null => none
  | JsValue.str s => if s == "" then none else jsParseInt s
  | JsValue.num n => some n
  | JsValue.bool _ => none

/-- `truncateLog` from the scrape controller: falsy values pass through,
strings of at most 8192 characters pass through, longer strings keep their
first 8192 characters followed by a truncation marker. -/
def truncateLog : Option String → Option String
  | none => none
  | some value =>
    if value == "" then some value
    else if value.length ≤ 8192 then some value
    else some (value.take 8192 ++ "\n... [truncated " ++
      toString (value.length - 8192) ++ " chars]")

/-- `normalizeBoolean` from the user controller: `undefined` and unrecognized
values fall back to the default, booleans pass through, recognized string
forms map to their boolean, numbers are compared with zero. -/
def normalizeBoolean (value : JsValue) (defaultValue : Option Bool) : Bool :=
  match value with
  | JsValue.undef => defaultValue.getD true
  | JsValue.bool b => b
  | JsValue.str s =>
    let normalized := jsToLower (jsTrim s)
    if normalized ∈ ["true", "1", "yes", "on"] then true
    else if normalized ∈ ["false", "0", "no", "off"] then false
    else defaultValue.getD true
  | JsValue.num n => decide (n ≠ 0)
  | JsValue.null => defaultValue.getD true

/-! ## Job orchestration data model (scrape controller) -/

/-- The resolved tenant context returned by `getUserTenantContext`. -/
structure TenantContext where
  userId : String
  resourceId : Option String
  vectorStorePath : Option String
  databaseUri : Option String
  botEndpoint : Option String
  deriving Repr, DecidableEq

/-- A thrown JavaScript `Error` as observed by the handler catch blocks:
its message plus the optional `statusCode`, `code` and `summary`
properties attached by the thrower. -/
structure JsError where
  message : String
  statusCode : Option Nat := none
  code : Option String := none
  summary : Option String := none
  deriving Repr, DecidableEq

/-- Result object returned by `runTenantScrape` / `runTenantUpdater`. -/
structure JobResult where
  summary : Option String := none
  stdout : Option String := none
  stderr : Option String := none
  deriving Repr, DecidableEq

/-- The JSON body the bot service may return from `/mark-data-updated`. -/
structure BotResponse where
  status : Option String := none
  message : Option String := none
  documentCount : Option Nat := none
  deriving Repr, DecidableEq

/-- Outcome of the `axios.post` call inside `refreshBotCache`:
either a 2xx response carrying an optional JSON body, or a thrown error
(network failure, timeout, or non-2xx status, which axios raises). -/
inductive HttpResult where
  | response (data : Option BotResponse)
  | failure (errMessage : String)
  deriving Repr, DecidableEq

/-- The value returned by `refreshBotCache`: the fields of the literal
objects `{success:true, message}` and `{success:false, error}`; reading the
absent `documentCount` property yields `undefined` (`none`). -/
structure SignalResult where
  success : Bool
  message : Option String := none
  error : Option String := none
  documentCount : Option Nat := none
  deriving Repr, DecidableEq

/-- `refreshBotCache`, with the HTTP POST abstracted as its outcome.  The
whole body sits in a try/catch that converts any thrown error into
`{success:false, error}`; a response whose body is falsy or whose `status`
field is not `"success"` also yields `{success:false, error}`. -/
def refreshBotCache (http : HttpResult) : SignalResult :=
  match http with
  | HttpResult.failure m => { success := false, error := some m }
  | HttpResult.response none =>
    { success := false, error := some "Unexpected response from bot service" }
  | HttpResult.response (some data) =>
    if data.status = some "success" then
      { success := true, message := data.message }
    else
      { success := false, error := some "Unexpected response from bot service" }

/-- `ensureTenantResources`: guard run before any job dispatch; throws a
503 error when `vectorStorePath` or `resourceId` is falsy. -/
def ensureTenantResources (tenantContext : TenantContext) : Except JsError Unit :=
  if strFalsy tenantContext.vectorStorePath || strFalsy tenantContext.resourceId then
    Except.error
      { message := "Tenant resources are incomplete. Re-provision before running scrape.",
        statusCode := some 503 }
  else Except.ok ()

/-- `buildJobId`, with the random component passed in as `entropy`. -/
def buildJobId (kindLabel : String) (resourceId : Option String) (entropy : String) : String :=
  kindLabel ++ "_" ++ orDefault resourceId "tenant" ++ "_" ++ entropy

/-- Request data consumed by `startScrape` and `runUpdater`: the body
fields (a field is `some s` when the body carries a string there) and the
authenticated-user data attached by the middleware. -/
structure JobRequest where
  startUrl : Option String
  sitemapUrl : Option String
  embeddingModelName : Option String
  collectionName : Option String
  domain : Option String
  mongoUri : Option String
  respectRobots : JsValue
  aggressiveDiscovery : JsValue
  maxDepth : JsValue
  maxLinksPerPage : JsValue
  tenantUserId : Option String
  userUserId : String
  userRole : String
  deriving Repr, DecidableEq

/-- Environment configuration read by the handlers. -/
structure EnvConfig where
  scraperLogLevel : Option String
  updaterLogLevel : Option String
  deriving Repr, DecidableEq

/-- The options bag passed to `runTenantScrape`. -/
structure ScrapeOptions where
  startUrl : String
  sitemapUrl : Option String
  resourceId : Option String
  userId : String
  vectorStorePath : Option String
  collectionName : Option String
  embeddingModelName : Option String
  domain : Option String
  maxDepth : Option Int
  maxLinksPerPage : Option Int
  respectRobots : Option Bool
  aggressiveDiscovery : Option Bool
  jobId : String
  logLevel : String
  deriving Repr, DecidableEq

/-- The options bag passed to `runTenantUpdater`. -/
structure UpdaterOptions where
  startUrl : String
  sitemapUrl : Option String
  resourceId : Option String
  userId : String
  vectorStorePath : Option String
  collectionName : Option String
  embeddingModelName : Option String
  domain : Option String
  maxDepth : Option Int
  maxLinksPerPage : Option Int
  respectRobots : Option Bool
  aggressiveDiscovery : Option Bool
  mongoUri : Option String
  jobId : String
  logLevel : String
  deriving Repr, DecidableEq

/-- The JSON body and status the handler sends back. -/
structure JobResponse where
  status : Nat
  success : Bool
  jobId : Option String := none
  resourceId : Option String := none
  summary : Option String := none
  stdout : Option String := none
  stderr : Option String := none
  cacheRefreshed : Option Bool := none
  documentCount : Option Nat := none
  error : Option String := none
  code : Option String := none
  deriving Repr, DecidableEq

/-- The catch block shared by both handlers:
`res.status(err.statusCode || 500).json({success:false, error, code, summary: err.summary || null})`. -/
def errorResponse (e : JsError) : JobResponse :=
  { status := e.statusCode.getD 500, success := false, error := some e.message,
    code := e.code, summary := if strFalsy e.summary then none else e.summary }

/-- The tenant-isolation check at the top of both handlers:
`userRole === 'user' && req.tenantUserId && req.tenantUserId !== req.user.userId`. -/
def accessDeniedJob (req : JobRequest) : Bool :=
  req.userRole == "user" && strTruthy req.tenantUserId &&
    !(req.tenantUserId == some req.userUserId)

/-- `startScrape`.  The identity-store read (`getUserTenantContext`), the
scrape subprocess (`runTenantScrape`) and the bot-service POST are
abstracted as their outcomes `ctxResult`, `jobOutcome` and `http`; the second
component of the result is the options bag passed to `runTenantScrape`
(`none` when the dispatch was never invoked). -/
def startScrape (env : EnvConfig) (req : JobRequest) (entropy : String)
    (ctxResult : Except JsError TenantContext)
    (jobOutcome : Except JsError JobResult)
    (http : HttpResult) : JobResponse × Option ScrapeOptions :=
  if accessDeniedJob req then
    ({ status := 403, success := false,
       error := some "Access denied: You can only scrape your own data" }, none)
  else
    match ctxResult with
    | Except.error e => (errorResponse e, none)
    | Except.ok tenantContext =>
      match ensureTenantResources tenantContext with
      | Except.error e => (errorResponse e, none)
      | Except.ok _ =>
        let jobId := buildJobId "scrape" tenantContext.resourceId entropy
        let scrapeOptions : ScrapeOptions :=
          { startUrl := (req.startUrl.map jsTrim).getD ""
            sitemapUrl := req.sitemapUrl.map jsTrim
            resourceId := tenantContext.resourceId
            userId := tenantContext.userId
            vectorStorePath := tenantContext.vectorStorePath
            collectionName := req.collectionName.map jsTrim
            embeddingModelName := req.embeddingModelName.map jsTrim
            domain := req.domain.map jsTrim
            maxDepth := parseIntegerOrUndefined req.maxDepth
            maxLinksPerPage := parseIntegerOrUndefined req.maxLinksPerPage
            respectRobots := toBooleanOrUndefined req.respectRobots
            aggressiveDiscovery := toBooleanOrUndefined req.aggressiveDiscovery
            jobId := jobId
            logLevel := orDefault env.scraperLogLevel "INFO" }
        match jobOutcome with
        | Except.error e => (errorResponse e, some scrapeOptions)
        | Except.ok result =>
          let cacheRefresh := refreshBotCache http
          ({ status := 200, success := true, jobId := some jobId,
             resourceId := tenantContext.resourceId,
             summary := result.summary,
             stdout := truncateLog result.stdout,
             stderr := truncateLog result.stderr,
             cacheRefreshed := some cacheRefresh.success,
             documentCount := cacheRefresh.documentCount }, some scrapeOptions)

/-- `mongoUriOverride || tenantContext.databaseUri` in `runUpdater`. -/
def effectiveMongoUri (req : JobRequest) (tenantContext : TenantContext) : Option String :=
  let mongoUriOverride := req.mongoUri.map jsTrim
  if strFalsy mongoUriOverride then tenantContext.databaseUri else mongoUriOverride

/-- `runUpdater`, abstracted like `startScrape`. -/
def runUpdater (env : EnvConfig) (req : JobRequest) (entropy : String)
    (ctxResult : Except JsError TenantContext)
    (jobOutcome : Except JsError JobResult)
    (http : HttpResult) : JobResponse × Option UpdaterOptions :=
  if accessDeniedJob req then
    ({ status := 403, success := false,
       error := some "Access denied: You can only update your own data" }, none)
  else
    match ctxResult with
    | Except.error e => (errorResponse e, none)
    | Except.ok tenantContext =>
      match ensureTenantResources tenantContext with
      | Except.error e => (errorResponse e, none)
      | Except.ok _ =>
        let jobId := buildJobId "update" tenantContext.resourceId entropy
        let updaterOptions : UpdaterOptions :=
          { startUrl := (req.startUrl.map jsTrim).getD ""
            sitemapUrl := req.sitemapUrl.map jsTrim
            resourceId := tenantContext.resourceId
            userId := tenantContext.userId
            vectorStorePath := tenantContext.vectorStorePath
            collectionName := req.collectionName.map jsTrim
            embeddingModelName := req.embeddingModelName.map jsTrim
            domain := req.domain.map jsTrim
            maxDepth := parseIntegerOrUndefined req.maxDepth
            maxLinksPerPage := parseIntegerOrUndefined req.maxLinksPerPage
            respectRobots := toBooleanOrUndefined req.respectRobots
            aggressiveDiscovery := toBooleanOrUndefined req.aggressiveDiscovery
            mongoUri := effectiveMongoUri req tenantContext
            jobId := jobId
            logLevel := orDefault env.updaterLogLevel "INFO" }
        match jobOutcome with
        | Except.error e => (errorResponse e, some updaterOptions)
        | Except.ok result =>
          let cacheRefresh := refreshBotCache http
          ({ status := 200, success := true, jobId := some jobId,
             resourceId := tenantContext.resourceId,
             summary := result.summary,
             stdout := truncateLog result.stdout,
             stderr := truncateLog result.stderr,
             cacheRefreshed := some cacheRefresh.success,
             documentCount := cacheRefresh.documentCount }, some updaterOptions)

/-! ## Identity layer data model (user and auth controllers) -/

/-- A persisted user record (the fields of `UserSchema`). -/
structure UserRec where
  id : String
  name : String
  email : String
  username : String
  password : String
  adminId : Option String
  resourceId : String
  databaseUri : String
  botEndpoint : String
  schedulerEndpoint : String
  scraperEndpoint : String
  vectorStorePath : String
  role : String
  isActive : Bool
  deriving Repr, DecidableEq

/-- Schema options declared on a field of `UserSchema`. -/
structure SchemaFieldOptions where
  required : Bool := false
  unique : Bool := false
  sparse : Bool := false
  immutable : Bool := false
  trimmed : Bool := false
  minlength : Option Nat := none
  maxlength : Option Nat := none
  deriving Repr, DecidableEq

/-- The options declared on `UserSchema.resourceId`. -/
def resourceIdSchemaField : SchemaFieldOptions :=
  { required := true, unique := true, sparse := true, immutable := true,
    trimmed := true, minlength := some 6, maxlength := some 60 }

/-- Side effects performed by the user and auth controllers, in order. -/
inductive DbEvent where
  | findOne
  | write (id : String)
  | deleteRec (id : String)
  | invalidate (id : String)
  | save (id : String)
  deriving Repr, DecidableEq

/-- A controller response: HTTP status plus the JSON `error` / `message` /
`field` properties the controllers set. -/
structure ApiResponse where
  status : Nat
  error : Option String := none
  message : Option String := none
  fieldName : Option String := none
  deriving Repr, DecidableEq

/-- `field.charAt(0).toUpperCase() + field.slice(1)` in the duplicate-key
catch branches. -/
def capitalizeField (s : String) : String :=
  match s.data with
  | [] => ""
  | c :: cs => String.mk (c.toUpper :: cs)

/-- One `updates.key = f(value)` assignment guarded by JS truthiness of the
body field. -/
def entryIf (field : Option String) (key : String) (f : String → String) :
    List (String × JsValue) :=
  match field with
  | some s => if s == "" then [] else [(key, JsValue.str (f s))]
  | none => []

/-- The `updates` object built by `updateMe`: `name`, `email`, `username`
and (hashed) `password`, each included only when the body field is truthy. -/
def updateMeSet (hash : String → String)
    (name email username password : Option String) : List (String × JsValue) :=
  entryIf name "name" jsTrim ++
  entryIf email "email" (fun s => jsTrim (jsToLower s)) ++
  entryIf username "username" jsTrim ++
  entryIf password "password" hash

/-- The `updates` object built by `updateUser`: like `updateMeSet` plus an
`isActive` entry whenever the body field is not `undefined` (the hashed
password is added after the duplicate checks, hence last). -/
def updateUserSet (hash : String → String)
    (name email username password : Option String) (isActive : JsValue) :
    List (String × JsValue) :=
  entryIf name "name" jsTrim ++
  entryIf email "email" (fun s => jsTrim (jsToLower s)) ++
  entryIf username "username" jsTrim ++
  (if isActive == JsValue.undef then []
   else [("isActive", JsValue.bool (normalizeBoolean isActive (some true)))]) ++
  entryIf password "password" hash

/-- Apply one `$set` entry to a user record (mongoose `findByIdAndUpdate`
semantics on the schema's concrete fields, without the schema-level
immutability guard, so that the effect of each possible key is visible). -/
def applyField (u : UserRec) (kv : String × JsValue) : UserRec :=
  if kv.1 = "name" then
    match kv.2 with | JsValue.str v => { u with name := v } | _ => u
  else if kv.1 = "email" then
    match kv.2 with | JsValue.str v => { u with email := v } | _ => u
  else if kv.1 = "username" then
    match kv.2 with | JsValue.str v => { u with username := v } | _ => u
  else if kv.1 = "password" then
    match kv.2 with | JsValue.str v => { u with password := v } | _ => u
  else if kv.1 = "isActive" then
    match kv.2 with | JsValue.bool b => { u with isActive := b } | _ => u
  else if kv.1 = "resourceId" then
    match kv.2 with | JsValue.str v => { u with resourceId := v } | _ => u
  else if kv.1 = "vectorStorePath" then
    match kv.2 with | JsValue.str v => { u with vectorStorePath := v } | _ => u
  else u

/-- Apply a whole `$set` document to a user record. -/
def applySet (u : UserRec) (s : List (String × JsValue)) : UserRec :=
  s.foldl applyField u

/-- Outcome of a `findByIdAndUpdate` write. -/
inductive WriteOutcome where
  | notFound
  | updated (u : UserRec)
  | validationFailed (msg : String)
  | duplicateKey (fieldName : String)
  deriving Repr, DecidableEq

/-- `updateMe` (user controller).  The identity-store operations are
abstracted as outcomes: `currentUser` is the `findById` result, `emailTaken`
and `usernameTaken` the duplicate-check results, `write` the
`findByIdAndUpdate` outcome.  Returns the response and the ordered trace
of db writes and cache invalidations. -/
def updateMe (userId : String) (_name email username _password : Option String)
    (_hash : String → String) (currentUser : Option UserRec)
    (emailTaken usernameTaken : Bool) (write : WriteOutcome) :
    ApiResponse × List DbEvent :=
  match currentUser with
  | none => ({ status := 404, error := some "User not found" }, [DbEvent.findOne])
  | some _ =>
    if strTruthy email && emailTaken then
      ({ status := 400, error := some "Email already in use by another user",
         fieldName := some "email" }, [DbEvent.findOne, DbEvent.findOne])
    else if strTruthy username && usernameTaken then
      ({ status := 400,
         error := some "Username already taken. Please choose a different username.",
         fieldName := some "username" },
       [DbEvent.findOne] ++ (if strTruthy email then [DbEvent.findOne] else []) ++
         [DbEvent.findOne])
    else
      let lookups := [DbEvent.findOne] ++
        (if strTruthy email then [DbEvent.findOne] else []) ++
        (if strTruthy username then [DbEvent.findOne] else [])
      match write with
      | WriteOutcome.updated _ =>
        ({ status := 200, message := some "Profile updated successfully" },
         lookups ++ [DbEvent.write userId, DbEvent.invalidate userId])
      | WriteOutcome.notFound =>
        ({ status := 404, error := some "User not found" }, lookups)
      | WriteOutcome.validationFailed m =>
        ({ status := 400, error := some m }, lookups)
      | WriteOutcome.duplicateKey f =>
        ({ status := 400, error := some (capitalizeField f ++ " already in use"),
           fieldName := some f }, lookups)

/-- `updateUser` (user controller), admin-initiated update of user `id`. -/
def updateUser (callerId callerRole id : String)
    (_name email username _password : Option String) (_isActive : JsValue)
    (_hash : String → String) (target : Option UserRec)
    (emailTaken usernameTaken : Bool) (write : WriteOutcome) :
    ApiResponse × List DbEvent :=
  match target with
  | none => ({ status := 404, error := some "User not found" }, [DbEvent.findOne])
  | some userToUpdate =>
    if callerRole == "admin" && strTruthy userToUpdate.adminId &&
        !(userToUpdate.adminId == some callerId) then
      ({ status := 403,
         error := some "Access denied: You can only update users you created" },
       [DbEvent.findOne])
    else if callerRole == "user" && !(userToUpdate.id == callerId) then
      ({ status := 403,
         error := some "Access denied: You can only update your own profile" },
       [DbEvent.findOne])
    else if strTruthy email && emailTaken then
      ({ status := 400,
         error := some "Email already in use by another user under this admin",
         fieldName := some "email" }, [DbEvent.findOne, DbEvent.findOne])
    else if strTruthy username && usernameTaken then
      ({ status := 400,
         error := some "Username already taken. Please choose a different username.",
         fieldName := some "username" },
       [DbEvent.findOne] ++ (if strTruthy email then [DbEvent.findOne] else []) ++
         [DbEvent.findOne])
    else
      let lookups := [DbEvent.findOne] ++
        (if strTruthy email then [DbEvent.findOne] else []) ++
        (if strTruthy username then [DbEvent.findOne] else [])
      match write with
      | WriteOutcome.updated _ =>
        ({ status := 200, message := some "User updated successfully" },
         lookups ++ [DbEvent.write id, DbEvent.invalidate id])
      | WriteOutcome.notFound =>
        ({ status := 404, error := some "User not found" }, lookups)
      | WriteOutcome.validationFailed m =>
        ({ status := 400, error := some m }, lookups)
      | WriteOutcome.duplicateKey _ =>
        ({ status := 500, error := some "Failed to update user" }, lookups)

/-- `deleteUser` (user controller).  `target` is the `findById` result and
`deleteOk` whether `deleteOne` completed without throwing. -/
def deleteUser (callerId callerRole id : String)
    (target : Option UserRec) (deleteOk : Bool) : ApiResponse × List DbEvent :=
  if callerId == id then
    ({ status := 400,
       error := some "You cannot delete your own account while signed in" }, [])
  else
    match target with
    | none => ({ status := 404, error := some "User not found" }, [DbEvent.findOne])
    | some user =>
      if callerRole == "admin" && strTruthy user.adminId &&
          !(user.adminId == some callerId) then
        ({ status := 403,
           error := some "Access denied: You can only delete users you created" },
         [DbEvent.findOne])
      else if callerRole == "user" then
        ({ status := 403,
           error := some "Access denied: Users cannot delete accounts" },
         [DbEvent.findOne])
      else if deleteOk then
        ({ status := 200, message := some "User deleted successfully" },
         [DbEvent.findOne, DbEvent.deleteRec id, DbEvent.invalidate id])
      else
        ({ status := 500, error := some "Failed to delete user" }, [DbEvent.findOne])

/-- The resource metadata produced by `provisionResourcesForUser`. -/
structure ResourceFields where
  resourceId : String
  databaseUri : String
  botEndpoint : String
  schedulerEndpoint : String
  scraperEndpoint : String
  vectorStorePath : String
  deriving Repr, DecidableEq

/-- Outcome of `user.save()`. -/
inductive SaveOutcome where
  | saved
  | validationFailed (msg : String)
  | duplicateKey (fieldName : String)
  | serverFailure (msg : String)
  deriving Repr, DecidableEq

/-- `registerUser` (auth controller).  `existingEmail` / `existingUsername`
are the duplicate-lookup outcomes, `provision` the outcome of
`provisionResourcesForUser`, `saveOutcome` the outcome of `user.save()`,
and `newId` the generated `_id` of the new document. -/
def registerUser (newId : String)
    (existingEmail existingUsername : Bool)
    (provision : Except String ResourceFields)
    (saveOutcome : SaveOutcome) : ApiResponse × List DbEvent :=
  if existingEmail then
    ({ status := 400, error := some "Email already in use", fieldName := some "email" },
     [DbEvent.findOne, DbEvent.findOne])
  else if existingUsername then
    ({ status := 400,
       error := some "Username already taken. Please choose a different username.",
       fieldName := some "username" }, [DbEvent.findOne, DbEvent.findOne])
  else
    match provision with
    | Except.error _ =>
      ({ status := 500, error := some "Failed to provision user resources" },
       [DbEvent.findOne, DbEvent.findOne])
    | Except.ok _ =>
      match saveOutcome with
      | SaveOutcome.saved =>
        ({ status := 201, message := some "Admin account registered successfully" },
         [DbEvent.findOne, DbEvent.findOne, DbEvent.save newId])
      | SaveOutcome.validationFailed m =>
        ({ status := 400, error := some m }, [DbEvent.findOne, DbEvent.findOne])
      | SaveOutcome.duplicateKey f =>
        ({ status := 400, error := some (capitalizeField f ++ " already in use"),
           fieldName := some f }, [DbEvent.findOne, DbEvent.findOne])
      | SaveOutcome.serverFailure _ =>
        ({ status := 500, error := some "Server error during registration" },
         [DbEvent.findOne, DbEvent.findOne])

/-- `createUser` (user controller), admin-initiated creation. -/
def createUser (callerRole : String) (newId : String)
    (existingEmail existingUsername : Bool)
    (provision : Except String ResourceFields)
    (saveOutcome : SaveOutcome) : ApiResponse × List DbEvent :=
  if !(callerRole == "admin") then
    ({ status := 403, error := some "Only administrators can create users" }, [])
  else if existingEmail then
    ({ status := 400,
       error := some "Email already in use by another user under your account",
       fieldName := some "email" }, [DbEvent.findOne, DbEvent.findOne])
  else if existingUsername then
    ({ status := 400,
       error := some "Username already taken. Please choose a different username.",
       fieldName := some "username" }, [DbEvent.findOne, DbEvent.findOne])
  else
    match provision with
    | Except.error _ =>
      ({ status := 500, error := some "Failed to provision user resources" },
       [DbEvent.findOne, DbEvent.findOne])
    | Except.ok _ =>
      match saveOutcome with
      | SaveOutcome.saved =>
        ({ status := 201, message := some "User created successfully" },
         [DbEvent.findOne, DbEvent.findOne, DbEvent.save newId])
      | SaveOutcome.validationFailed m =>
        ({ status := 400, error := some m }, [DbEvent.findOne, DbEvent.findOne])
      | SaveOutcome.duplicateKey f =>
        ({ status := 400, error := some (capitalizeField f ++ " already in use"),
           fieldName := some f }, [DbEvent.findOne, DbEvent.findOne])
      | SaveOutcome.serverFailure _ =>
        ({ status := 500, error := some "Failed to create user" },
         [DbEvent.findOne, DbEvent.findOne])

/-! ## Tenant-context cache (services/userContextService.js)

The cache implementation itself is not among the provided source files; it
is modelled from the spec. -/

/-- Modelled from the spec: the in-process cache of
`services/userContextService.js` (file not present under src/), a map from
tenant identity to resolved context, represented as an association list. -/
def cacheLookup (cache : List (String × TenantContext)) (id : String) :
    Option TenantContext :=
  (cache.find? (fun p => p.1 == id)).map Prod.snd

/-- Modelled from the spec: `invalidateUserTenantContext` of
`services/userContextService.js` (file not present under src/) removes the
cached entry for the identity so the next read re-queries the identity
store. -/
def invalidateUserTenantContext (cache : List (String × TenantContext))
    (id : String) : List (String × TenantContext) :=
  cache.filter (fun p => !(p.1 == id))

/-- Modelled from the spec: `getUserTenantContext` of
`services/userContextService.js` (file not present under src/) returns the
cached entry when one exists and no refresh is forced, and otherwise reads
the identity store; the boolean reports whether a store read happened. -/
def getUserTenantContext (store : String → Option TenantContext)
    (cache : List (String × TenantContext)) (id : String) (forceRefresh : Bool) :
    Option TenantContext × Bool :=
  match (if forceRefresh then none else cacheLookup cache id) with
  | some ctx => (some ctx, false)
  | none => (store id, true)

/-! ## Sample fixtures used by the witnesses -/

def sampleCtx : TenantContext :=
  { userId := "u1", resourceId := some "acme_7f3a",
    vectorStorePath := some "/stores/acme_7f3a",
    databaseUri := some "mongodb://localhost:27017/acme",
    botEndpoint := some "http://localhost:8000" }

def sampleReq : JobRequest :=
  { startUrl := some "https://acme.example/docs", sitemapUrl := none,
    embeddingModelName := none, collectionName := none, domain := none,
    mongoUri := none, respectRobots := JsValue.str " YES ",
    aggressiveDiscovery := JsValue.undef, maxDepth := JsValue.num 2,
    maxLinksPerPage := JsValue.undef, tenantUserId := none,
    userUserId := "u1", userRole := "admin" }

def sampleEnv : EnvConfig := { scraperLogLevel := none, updaterLogLevel := none }

def sampleJobResult : JobResult :=
  { summary := some "pagesCrawled:40", stdout := some "ok", stderr := none }

def sampleUser : UserRec :=
  { id := "u1", name := "Acme", email := "acme@example.com", username := "acme",
    password := "hashed", adminId := none, resourceId := "acme_7f3a",
    databaseUri := "mongodb://localhost:27017/acme",
    botEndpoint := "http://localhost:8000",
    schedulerEndpoint := "http://localhost:9000",
    scraperEndpoint := "http://localhost:7000",
    vectorStorePath := "/stores/acme_7f3a", role := "admin", isActive := true }

/-! ## Branch equations for the job handlers -/

theorem startScrape_denied (env : EnvConfig) (req : JobRequest) (entropy : String)
    (ctxResult : Except JsError TenantContext) (jobOutcome : Except JsError JobResult)
    (http : HttpResult) (hA : accessDeniedJob req = true) :
    startScrape env req entropy ctxResult jobOutcome http =
      ({ status := 403, success := false,
         error := some "Access denied: You can only scrape your own data" }, none) := by
  simp [startScrape, hA]

theorem startScrape_ctx_error (env : EnvConfig) (req : JobRequest) (entropy : String)
    (e : JsError) (jobOutcome : Except JsError JobResult) (http : HttpResult)
    (hA : accessDeniedJob req = false) :
    startScrape env req entropy (Except.error e) jobOutcome http =
      (errorResponse e, none) := by
  simp [startScrape, hA]

theorem startScrape_guard_error (env : EnvConfig) (req : JobRequest) (entropy : String)
    (ctx : TenantContext) (e : JsError) (jobOutcome : Except JsError JobResult)
    (http : HttpResult) (hA : accessDeniedJob req = false)
    (hG : ensureTenantResources ctx = Except.error e) :
    startScrape env req entropy (Except.ok ctx) jobOutcome http =
      (errorResponse e, none) := by
  simp [startScrape, hA, hG]

/-- The options bag `startScrape` builds once the guard has passed. -/
def builtScrapeOptions (env : EnvConfig) (req : JobRequest) (entropy : String)
    (ctx : TenantContext) : ScrapeOptions :=
  { startUrl := (req.startUrl.map jsTrim).getD ""
    sitemapUrl := req.sitemapUrl.map jsTrim
    resourceId := ctx.resourceId
    userId := ctx.userId
    vectorStorePath := ctx.vectorStorePath
    collectionName := req.collectionName.map jsTrim
    embeddingModelName := req.embeddingModelName.map jsTrim
    domain := req.domain.map jsTrim
    maxDepth := parseIntegerOrUndefined req.maxDepth
    maxLinksPerPage := parseIntegerOrUndefined req.maxLinksPerPage
    respectRobots := toBooleanOrUndefined req.respectRobots
    aggressiveDiscovery := toBooleanOrUndefined req.aggressiveDiscovery
    jobId := buildJobId "scrape" ctx.resourceId entropy
    logLevel := orDefault env.scraperLogLevel "INFO" }

theorem startScrape_job_error (env : EnvConfig) (req : JobRequest) (entropy : String)
    (ctx : TenantContext) (e : JsError) (http : HttpResult)
    (hA : accessDeniedJob req = false)
    (hG : ensureTenantResources ctx = Except.ok ()) :
    startScrape env req entropy (Except.ok ctx) (Except.error e) http =
      (errorResponse e, some (builtScrapeOptions env req entropy ctx)) := by
  simp [startScrape, hA, hG, builtScrapeOptions]

theorem startScrape_success (env : EnvConfig) (req : JobRequest) (entropy : String)
    (ctx : TenantContext) (result : JobResult) (http : HttpResult)
    (hA : accessDeniedJob req = false)
    (hG : ensureTenantResources ctx = Except.ok ()) :
    startScrape env req entropy (Except.ok ctx) (Except.ok result) http =
      ({ status := 200, success := true,
         jobId := some (buildJobId "scrape" ctx.resourceId entropy),
         resourceId := ctx.resourceId,
         summary := result.summary,
         stdout := truncateLog result.stdout,
         stderr := truncateLog result.stderr,
         cacheRefreshed := some (refreshBotCache http).success,
         documentCount := (refreshBotCache http).documentCount },
       some (builtScrapeOptions env req entropy ctx)) := by
  simp [startScrape, hA, hG, builtScrapeOptions]

theorem runUpdater_denied (env : EnvConfig) (req : JobRequest) (entropy : String)
    (ctxResult : Except JsError TenantContext) (jobOutcome : Except JsError JobResult)
    (http : HttpResult) (hA : accessDeniedJob req = true) :
    runUpdater env req entropy ctxResult jobOutcome http =
      ({ status := 403, success := false,
         error := some "Access denied: You can only update your own data" }, none) := by
  simp [runUpdater, hA]

theorem runUpdater_ctx_error (env : EnvConfig) (req : JobRequest) (entropy : String)
    (e : JsError) (jobOutcome : Except JsError JobResult) (http : HttpResult)
    (hA : accessDeniedJob req = false) :
    runUpdater env req entropy (Except.error e) jobOutcome http =
      (errorResponse e, none) := by
  simp [runUpdater, hA]

theorem runUpdater_guard_error (env : EnvConfig) (req : JobRequest) (entropy : String)
    (ctx : TenantContext) (e : JsError) (jobOutcome : Except JsError JobResult)
    (http : HttpResult) (hA : accessDeniedJob req = false)
    (hG : ensureTenantResources ctx = Except.error e) :
    runUpdater env req entropy (Except.ok ctx) jobOutcome http =
      (errorResponse e, none) := by
  simp [runUpdater, hA, hG]

/-- The options bag `runUpdater` builds once the guard has passed. -/
def builtUpdaterOptions (env : EnvConfig) (req : JobRequest) (entropy : String)
    (ctx : TenantContext) : UpdaterOptions :=
  { startUrl := (req.startUrl.map jsTrim).getD ""
    sitemapUrl := req.sitemapUrl.map jsTrim
    resourceId := ctx.resourceId
    userId := ctx.userId
    vectorStorePath := ctx.vectorStorePath
    collectionName := req.collectionName.map jsTrim
    embeddingModelName := req.embeddingModelName.map jsTrim
    domain := req.domain.map jsTrim
    maxDepth := parseIntegerOrUndefined req.maxDepth
    maxLinksPerPage := parseIntegerOrUndefined req.maxLinksPerPage
    respectRobots := toBooleanOrUndefined req.respectRobots
    aggressiveDiscovery := toBooleanOrUndefined req.aggressiveDiscovery
    mongoUri := effectiveMongoUri req ctx
    jobId := buildJobId "update" ctx.resourceId entropy
    logLevel := orDefault env.updaterLogLevel "INFO" }

theorem runUpdater_job_error (env : EnvConfig) (req : JobRequest) (entropy : String)
    (ctx : TenantContext) (e : JsError) (http : HttpResult)
    (hA : accessDeniedJob req = false)
    (hG : ensureTenantResources ctx = Except.ok ()) :
    runUpdater env req entropy (Except.ok ctx) (Except.error e) http =
      (errorResponse e, some (builtUpdaterOptions env req entropy ctx)) := by
  simp [runUpdater, hA, hG, builtUpdaterOptions]

theorem runUpdater_success (env : EnvConfig) (req : JobRequest) (entropy : String)
    (ctx : TenantContext) (result : JobResult) (http : HttpResult)
    (hA : accessDeniedJob req = false)
    (hG : ensureTenantResources ctx = Except.ok ()) :
    runUpdater env req entropy (Except.ok ctx) (Except.ok result) http =
      ({ status := 200, success := true,
         jobId := some (buildJobId "update" ctx.resourceId entropy),
         resourceId := ctx.resourceId,
         summary := result.summary,
         stdout := truncateLog result.stdout,
         stderr := truncateLog result.stderr,
         cacheRefreshed := some (refreshBotCache http).success,
         documentCount := (refreshBotCache http).documentCount },
       some (builtUpdaterOptions env req entropy ctx)) := by
  simp [runUpdater, hA, hG, builtUpdaterOptions]

theorem refreshBotCache_documentCount (h : HttpResult) :
    (refreshBotCache h).documentCount = none := by
  cases h with
  | failure m => rfl
  | response d =>
    cases d with
    | none => rfl
    | some data =>
      by_cases hs : data.status = some "success" <;> simp [refreshBotCache, hs]

/-! ## Claim theorems -/

/-- C9: in every response from `startScrape` and `runUpdater` the
`documentCount` field is `undefined` (hence absent after JSON
serialization): the handlers copy `cacheRefresh.documentCount`, but
`refreshBotCache` only ever returns `{success:true, message}` or
`{success:false, error}` and never a `documentCount`, whatever the bot
service replied. -/
theorem documentCount_always_absent (env : EnvConfig) (req : JobRequest)
    (entropy : String) (ctxResult : Except JsError TenantContext)
    (jobOutcome : Except JsError JobResult) (http : HttpResult) :
    (startScrape env req entropy ctxResult jobOutcome http).1.documentCount = none ∧
    (runUpdater env req entropy ctxResult jobOutcome http).1.documentCount = none ∧
    (refreshBotCache http).documentCount = none := by
  refine ⟨?_, ?_, refreshBotCache_documentCount http⟩
  · cases hA : accessDeniedJob req with
    | true => rw [startScrape_denied env req entropy ctxResult jobOutcome http hA]
    | false =>
      cases ctxResult with
      | error e =>
        rw [startScrape_ctx_error env req entropy e jobOutcome http hA]
        rfl
      | ok ctx =>
        cases hG : ensureTenantResources ctx with
        | error e =>
          rw [startScrape_guard_error env req entropy ctx e jobOutcome http hA hG]
          rfl
        | ok u =>
          cases u
          cases jobOutcome with
          | error e =>
            rw [startScrape_job_error env req entropy ctx e http hA hG]
            rfl
          | ok r =>
            rw [startScrape_success env req entropy ctx r http hA hG]
            exact refreshBotCache_documentCount http
  · cases hA : accessDeniedJob req with
    | true => rw [runUpdater_denied env req entropy ctxResult jobOutcome http hA]
    | false =>
      cases ctxResult with
      | error e =>
        rw [runUpdater_ctx_error env req entropy e jobOutcome http hA]
        rfl
      | ok ctx =>
        cases hG : ensureTenantResources ctx with
        | error e =>
          rw [runUpdater_guard_error env req entropy ctx e jobOutcome http hA hG]
          rfl
        | ok u =>
          cases u
          cases jobOutcome with
          | error e =>
            rw [runUpdater_job_error env req entropy ctx e http hA hG]
            rfl
          | ok r =>
            rw [runUpdater_success env req entropy ctx r http hA hG]
            exact refreshBotCache_documentCount http

/-- C10: when the authenticated caller's userId equals the target id,
`deleteUser` answers 400 immediately: no lookup, deletion or cache
invalidation is performed (empty effect trace), whatever the store holds. -/
theorem deleteUser_self_delete_guard (id callerRole : String)
    (target : Option UserRec) (deleteOk : Bool) :
    deleteUser id callerRole id target deleteOk =
      ({ status := 400,
         error := some "You cannot delete your own account while signed in" }, []) := by
  simp [deleteUser]

/-- C5: `truncateLog` returns a stream of at most 8192 characters
unchanged, cuts a longer stream to its first 8192 characters followed by
the marker `... [truncated N chars]` (after a newline) with N exactly the
number of characters cut, and passes a null or empty stream through
unchanged; the job response reports exactly these values for stdout and
stderr. -/
theorem truncateLog_spec (s : String) (env : EnvConfig) (req : JobRequest)
    (entropy : String) (ctx : TenantContext) (result : JobResult)
    (http : HttpResult) :
    truncateLog (some s) =
      some (if s.length ≤ 8192 then s
        else s.take 8192 ++ "\n... [truncated " ++
          toString (s.length - 8192) ++ " chars]") ∧
    truncateLog none = none ∧
    truncateLog (some "") = some "" ∧
    (accessDeniedJob req = false → ensureTenantResources ctx = Except.ok () →
      (startScrape env req entropy (Except.ok ctx) (Except.ok result) http).1.stdout =
          truncateLog result.stdout ∧
        (startScrape env req entropy (Except.ok ctx) (Except.ok result) http).1.stderr =
          truncateLog result.stderr) := by
  refine ⟨?_, rfl, rfl, ?_⟩
  · unfold truncateLog
    by_cases h0 : s == ""
    · have hs : s = "" := by simpa using h0
      subst hs
      rfl
    · simp only [h0, Bool.false_eq_true, if_false]
      split <;> rfl
  · intro hA hG
    rw [startScrape_success env req entropy ctx result http hA hG]
    exact ⟨rfl, rfl⟩

/-- C1: when the job completes successfully but the stale-index
notification fails in any way — thrown request error (timeout, network
error, non-2xx status) or a response whose body is falsy or whose status
field is not "success" — `refreshBotCache` absorbs the failure and returns
`{success:false, error}`, and the handler still answers 200 with
`success:true` and `cacheRefreshed:false`; the signal succeeds exactly on a
response body whose status is "success". -/
theorem signal_failure_isolated (env : EnvConfig) (req : JobRequest)
    (entropy : String) (ctx : TenantContext) (result : JobResult)
    (http : HttpResult)
    (hA : accessDeniedJob req = false)
    (hG : ensureTenantResources ctx = Except.ok ())
    (hFail : (refreshBotCache http).success = false) :
    (startScrape env req entropy (Except.ok ctx) (Except.ok result) http).1.success = true ∧
    (startScrape env req entropy (Except.ok ctx) (Except.ok result) http).1.status = 200 ∧
    (startScrape env req entropy (Except.ok ctx) (Except.ok result) http).1.cacheRefreshed =
      some false ∧
    (runUpdater env req entropy (Except.ok ctx) (Except.ok result) http).1.success = true ∧
    (runUpdater env req entropy (Except.ok ctx) (Except.ok result) http).1.status = 200 ∧
    (runUpdater env req entropy (Except.ok ctx) (Except.ok result) http).1.cacheRefreshed =
      some false ∧
    (refreshBotCache http).error.isSome = true ∧
    ((refreshBotCache http).success = true ↔
      ∃ data, http = HttpResult.response (some data) ∧ data.status = some "success") := by
  rw [startScrape_success env req entropy ctx result http hA hG,
    runUpdater_success env req entropy ctx result http hA hG]
  refine ⟨rfl, rfl, ?_, rfl, rfl, ?_, ?_, ?_⟩
  · simp [hFail]
  · simp [hFail]
  · cases http with
    | failure m => rfl
    | response d =>
      cases d with
      | none => rfl
      | some data =>
        by_cases hs : data.status = some "success"
        · simp [refreshBotCache, hs] at hFail
        · simp [refreshBotCache, hs]
  · cases http with
    | failure m => simp [refreshBotCache]
    | response d =>
      cases d with
      | none => simp [refreshBotCache]
      | some data =>
        by_cases hs : data.status = some "success" <;> simp [refreshBotCache, hs]

/-- Witness for C1 at a concrete connection-refused outcome. -/
theorem signal_failure_isolated_witness :
    (startScrape sampleEnv sampleReq "e2" (Except.ok sampleCtx)
        (Except.ok sampleJobResult) (HttpResult.failure "connect ECONNREFUSED")).1.success =
      true ∧
    (startScrape sampleEnv sampleReq "e2" (Except.ok sampleCtx)
        (Except.ok sampleJobResult)
        (HttpResult.failure "connect ECONNREFUSED")).1.cacheRefreshed = some false := by
  have h := signal_failure_isolated sampleEnv sampleReq "e2" sampleCtx sampleJobResult
    (HttpResult.failure "connect ECONNREFUSED") rfl rfl rfl
  exact ⟨h.1, h.2.2.1⟩

/-- C3: on a resolved context whose resourceId or vectorStorePath is absent
or empty, both handlers fail from the `ensureTenantResources` guard — a 503
error — before the job capability is invoked (no options bag is ever passed
to it), and respond `success:false` at status 503; when both fields are
present and non-empty the guard's error branch is unreachable. -/
theorem incomplete_resources_block_dispatch (env : EnvConfig) (req : JobRequest)
    (entropy : String) (ctx : TenantContext)
    (jobOutcome : Except JsError JobResult) (http : HttpResult)
    (hA : accessDeniedJob req = false)
    (hBad : strFalsy ctx.resourceId = true ∨ strFalsy ctx.vectorStorePath = true) :
    (∃ e, ensureTenantResources ctx = Except.error e ∧ e.statusCode = some 503) ∧
    (startScrape env req entropy (Except.ok ctx) jobOutcome http).2 = none ∧
    (startScrape env req entropy (Except.ok ctx) jobOutcome http).1.status = 503 ∧
    (startScrape env req entropy (Except.ok ctx) jobOutcome http).1.success = false ∧
    (runUpdater env req entropy (Except.ok ctx) jobOutcome http).2 = none ∧
    (runUpdater env req entropy (Except.ok ctx) jobOutcome http).1.status = 503 ∧
    (runUpdater env req entropy (Except.ok ctx) jobOutcome http).1.success = false ∧
    (∀ c : TenantContext, strFalsy c.resourceId = false →
      strFalsy c.vectorStorePath = false → ensureTenantResources c = Except.ok ()) := by
  have hcond : (strFalsy ctx.vectorStorePath || strFalsy ctx.resourceId) = true := by
    rcases hBad with h | h <;> simp [h]
  have hG : ensureTenantResources ctx =
      Except.error
        { message := "Tenant resources are incomplete. Re-provision before running scrape.",
          statusCode := some 503 } := by
    simp [ensureTenantResources, hcond]
  rw [startScrape_guard_error env req entropy ctx _ jobOutcome http hA hG,
    runUpdater_guard_error env req entropy ctx _ jobOutcome http hA hG]
  refine ⟨⟨_, hG, rfl⟩, rfl, rfl, rfl, rfl, rfl, rfl, ?_⟩
  intro c h1 h2
  simp [ensureTenantResources, h1, h2]

/-- A resolved context that never got a resourceId assigned. -/
def sampleIncompleteCtx : TenantContext :=
  { userId := "u2", resourceId := none, vectorStorePath := some "/stores/x",
    databaseUri := none, botEndpoint := none }

/-- Witness for C3 on a context with no resourceId. -/
theorem incomplete_resources_block_dispatch_witness :
    (startScrape sampleEnv sampleReq "e3" (Except.ok sampleIncompleteCtx)
        (Except.ok sampleJobResult) (HttpResult.response none)).2 = none ∧
    (startScrape sampleEnv sampleReq "e3" (Except.ok sampleIncompleteCtx)
        (Except.ok sampleJobResult) (HttpResult.response none)).1.status = 503 := by
  have h := incomplete_resources_block_dispatch sampleEnv sampleReq "e3"
    sampleIncompleteCtx (Except.ok sampleJobResult) (HttpResult.response none)
    rfl (Or.inl rfl)
  exact ⟨h.2.1, h.2.2.1⟩

/-- Witness for C5: the success response reports the truncated streams. -/
theorem truncateLog_spec_witness :
    (startScrape sampleEnv sampleReq "e5" (Except.ok sampleCtx)
        (Except.ok sampleJobResult) (HttpResult.response none)).1.stdout =
      truncateLog sampleJobResult.stdout ∧
    (startScrape sampleEnv sampleReq "e5" (Except.ok sampleCtx)
        (Except.ok sampleJobResult) (HttpResult.response none)).1.stderr =
      truncateLog sampleJobResult.stderr :=
  (truncateLog_spec "x" sampleEnv sampleReq "e5" sampleCtx sampleJobResult
    (HttpResult.response none)).2.2.2 rfl rfl

theorem pos_neg_disjoint (t : String)
    (h1 : t ∈ ["true", "1", "yes", "on"])
    (h2 : t ∈ ["false", "0", "no", "off"]) : False := by
  fin_cases h1 <;> revert h2 <;> decide

theorem toBool_str_pos (s : String)
    (h : jsToLower (jsTrim s) ∈ ["true", "1", "yes", "on"]) :
    toBooleanOrUndefined (JsValue.str s) = some true := by
  simp [toBooleanOrUndefined, h]

theorem toBool_str_neg (s : String)
    (h1 : jsToLower (jsTrim s) ∉ ["true", "1", "yes", "on"])
    (h2 : jsToLower (jsTrim s) ∈ ["false", "0", "no", "off"]) :
    toBooleanOrUndefined (JsValue.str s) = some false := by
  simp [toBooleanOrUndefined, h1, h2]

theorem toBool_str_other (s : String)
    (h1 : jsToLower (jsTrim s) ∉ ["true", "1", "yes", "on"])
    (h2 : jsToLower (jsTrim s) ∉ ["false", "0", "no", "off"]) :
    toBooleanOrUndefined (JsValue.str s) = none := by
  simp [toBooleanOrUndefined, h1, h2]

/-- C7: the parsed robots-respect / aggressive-discovery flag is `true`
exactly for boolean true and the trimmed, lowercased strings "true", "1",
"yes", "on"; `false` exactly for boolean false and "false", "0", "no",
"off"; `undefined` for every other value (absent, null, numbers,
unrecognized strings); and the options bag passed to the job carries exactly
this parsed value. -/
theorem toBooleanOrUndefined_spec (v : JsValue) (env : EnvConfig)
    (req : JobRequest) (entropy : String) (ctx : TenantContext)
    (jobOutcome : Except JsError JobResult) (http : HttpResult) :
    (toBooleanOrUndefined v = some true ↔
      (v = JsValue.bool true ∨
        ∃ s, v = JsValue.str s ∧ jsToLower (jsTrim s) ∈ ["true", "1", "yes", "on"])) ∧
    (toBooleanOrUndefined v = some false ↔
      (v = JsValue.bool false ∨
        ∃ s, v = JsValue.str s ∧ jsToLower (jsTrim s) ∈ ["false", "0", "no", "off"])) ∧
    (toBooleanOrUndefined v = none ↔
      (v = JsValue.undef ∨ v = JsValue.null ∨ (∃ n, v = JsValue.num n) ∨
        ∃ s, v = JsValue.str s ∧
          jsToLower (jsTrim s) ∉ ["true", "1", "yes", "on"] ∧
          jsToLower (jsTrim s) ∉ ["false", "0", "no", "off"])) ∧
    (accessDeniedJob req = false → ensureTenantResources ctx = Except.ok () →
      Option.map ScrapeOptions.respectRobots
          (startScrape env req entropy (Except.ok ctx) jobOutcome http).2 =
        some (toBooleanOrUndefined req.respectRobots) ∧
      Option.map ScrapeOptions.aggressiveDiscovery
          (startScrape env req entropy (Except.ok ctx) jobOutcome http).2 =
        some (toBooleanOrUndefined req.aggressiveDiscovery)) := by
  refine ⟨?_, ?_, ?_, ?_⟩
  · cases v with
    | undef => simp [toBooleanOrUndefined]
    | null => simp [toBooleanOrUndefined]
    | bool b => simp [toBooleanOrUndefined]
    | num n => simp [toBooleanOrUndefined]
    | str s =>
      constructor
      · intro h
        by_cases h1 : jsToLower (jsTrim s) ∈ ["true", "1", "yes", "on"]
        · exact Or.inr ⟨s, rfl, h1⟩
        · by_cases h2 : jsToLower (jsTrim s) ∈ ["false", "0", "no", "off"]
          · rw [toBool_str_neg s h1 h2] at h
            cases h
          · rw [toBool_str_other s h1 h2] at h
            cases h
      · rintro (h | ⟨u, hu, hmem⟩)
        · cases h
        · cases hu
          exact toBool_str_pos s hmem
  · cases v with
    | undef => simp [toBooleanOrUndefined]
    | null => simp [toBooleanOrUndefined]
    | bool b => simp [toBooleanOrUndefined]
    | num n => simp [toBooleanOrUndefined]
    | str s =>
      constructor
      · intro h
        by_cases h1 : jsToLower (jsTrim s) ∈ ["true", "1", "yes", "on"]
        · rw [toBool_str_pos s h1] at h
          cases h
        · by_cases h2 : jsToLower (jsTrim s) ∈ ["false", "0", "no", "off"]
          · exact Or.inr ⟨s, rfl, h2⟩
          · rw [toBool_str_other s h1 h2] at h
            cases h
      · rintro (h | ⟨u, hu, hmem⟩)
        · cases h
        · cases hu
          exact toBool_str_neg s (fun h1 => pos_neg_disjoint _ h1 hmem) hmem
  · cases v with
    | undef => simp [toBooleanOrUndefined]
    | null => simp [toBooleanOrUndefined]
    | bool b => simp [toBooleanOrUndefined]
    | num n => simp [toBooleanOrUndefined]
    | str s =>
      constructor
      · intro h
        by_cases h1 : jsToLower (jsTrim s) ∈ ["true", "1", "yes", "on"]
        · rw [toBool_str_pos s h1] at h
          cases h
        · by_cases h2 : jsToLower (jsTrim s) ∈ ["false", "0", "no", "off"]
          · rw [toBool_str_neg s h1 h2] at h
            cases h
          · exact Or.inr (Or.inr (Or.inr ⟨s, rfl, h1, h2⟩))
      · rintro (h | h | ⟨n, h⟩ | ⟨u, hu, hp, hn⟩)
        · cases h
        · cases h
        · cases h
        · cases hu
          exact toBool_str_other s hp hn
  · intro hA hG
    have hsnd : (startScrape env req entropy (Except.ok ctx) jobOutcome http).2 =
        some (builtScrapeOptions env req entropy ctx) := by
      cases jobOutcome with
      | error e => rw [startScrape_job_error env req entropy ctx e http hA hG]
      | ok r => rw [startScrape_success env req entropy ctx r http hA hG]
    rw [hsnd]
    exact ⟨rfl, rfl⟩

/-- Witness for C7: a pipeline dispatch with `respectRobots: " YES "`. -/
theorem toBooleanOrUndefined_spec_witness :
    Option.map ScrapeOptions.respectRobots
        (startScrape sampleEnv sampleReq "e6" (Except.ok sampleCtx)
          (Except.ok sampleJobResult) (HttpResult.response none)).2 =
      some (some true) := by
  have h := (toBooleanOrUndefined_spec (JsValue.str " YES ") sampleEnv sampleReq "e6"
    sampleCtx (Except.ok sampleJobResult) (HttpResult.response none)).2.2.2 rfl rfl
  exact h.1.trans (by decide)

/-- C8: once `runUpdater` passes its guard, the options bag handed to the
updater carries the request's trimmed `mongoUri` override whenever that
trims to a non-empty string, and the context's `databaseUri` otherwise;
`startScrape` ignores the `mongoUri` body field entirely. -/
theorem updater_mongo_override_spec (env : EnvConfig) (req : JobRequest)
    (entropy : String) (ctx : TenantContext) (s : String)
    (jobOutcome : Except JsError JobResult) (http : HttpResult)
    (hA : accessDeniedJob req = false)
    (hG : ensureTenantResources ctx = Except.ok ()) :
    (req.mongoUri = some s → ¬jsTrim s = "" →
      Option.map UpdaterOptions.mongoUri
          (runUpdater env req entropy (Except.ok ctx) jobOutcome http).2 =
        some (some (jsTrim s))) ∧
    ((req.mongoUri = none ∨ (req.mongoUri = some s ∧ jsTrim s = "")) →
      Option.map UpdaterOptions.mongoUri
          (runUpdater env req entropy (Except.ok ctx) jobOutcome http).2 =
        some ctx.databaseUri) ∧
    (∀ a b : Option String,
      startScrape env { req with mongoUri := a } entropy (Except.ok ctx)
          jobOutcome http =
        startScrape env { req with mongoUri := b } entropy (Except.ok ctx)
          jobOutcome http) := by
  have hsnd : (runUpdater env req entropy (Except.ok ctx) jobOutcome http).2 =
      some (builtUpdaterOptions env req entropy ctx) := by
    cases jobOutcome with
    | error e => rw [runUpdater_job_error env req entropy ctx e http hA hG]
    | ok r => rw [runUpdater_success env req entropy ctx r http hA hG]
  refine ⟨?_, ?_, ?_⟩
  · intro hm ht
    rw [hsnd]
    have : strFalsy (some (jsTrim s)) = false := by
      simp [strFalsy, ht]
    simp [builtUpdaterOptions, effectiveMongoUri, hm, this]
  · intro hm
    rw [hsnd]
    rcases hm with hm | ⟨hm, ht⟩
    · simp [builtUpdaterOptions, effectiveMongoUri, hm, strFalsy]
    · simp [builtUpdaterOptions, effectiveMongoUri, hm, ht, strFalsy]
  · intro a b
    cases req
    rfl

/-- Witness for C8: a non-empty override is forwarded trimmed. -/
theorem updater_mongo_override_spec_witness :
    Option.map UpdaterOptions.mongoUri
        (runUpdater sampleEnv { sampleReq with mongoUri := some " mongodb://x " } "e7"
          (Except.ok sampleCtx) (Except.ok sampleJobResult)
          (HttpResult.response none)).2 =
      some (some "mongodb://x") := by
  have h := (updater_mongo_override_spec sampleEnv
    { sampleReq with mongoUri := some " mongodb://x " } "e7" sampleCtx " mongodb://x "
    (Except.ok sampleJobResult) (HttpResult.response none) rfl rfl).1 rfl (by decide)
  exact h.trans (by decide)

theorem applyField_preserves_resourceId (u : UserRec) (k : String) (val : JsValue)
    (h : ¬k = "resourceId") : (applyField u (k, val)).resourceId = u.resourceId := by
  unfold applyField
  dsimp only
  split_ifs with h1 h2 h3 h4 h5 h6
  · cases val <;> rfl
  · cases val <;> rfl
  · cases val <;> rfl
  · cases val <;> rfl
  · cases val <;> rfl
  · cases val <;> rfl
  · rfl

theorem applySet_preserves_resourceId (l : List (String × JsValue)) (u : UserRec)
    (h : ∀ kv ∈ l, ¬kv.1 = "resourceId") :
    (applySet u l).resourceId = u.resourceId := by
  induction l generalizing u with
  | nil => rfl
  | cons kv t ih =>
    rcases kv with ⟨k, val⟩
    have hstep : applySet u ((k, val) :: t) = applySet (applyField u (k, val)) t := rfl
    rw [hstep, ih (applyField u (k, val)) (fun p hp => h p (List.mem_cons_of_mem _ hp)),
      applyField_preserves_resourceId u k val (h (k, val) (List.mem_cons_self _ _))]

theorem entryIf_key (field : Option String) (key : String) (f : String → String)
    (kv : String × JsValue) (hkv : kv ∈ entryIf field key f) : kv.1 = key := by
  rcases field with _ | s
  · simp [entryIf] at hkv
  · by_cases hs : (s == "") = true
    · simp only [entryIf, if_pos hs] at hkv
      cases hkv
    · simp only [entryIf, if_neg hs, List.mem_singleton] at hkv
      rw [hkv]

theorem updateMeSet_keys (hash : String → String)
    (name email username password : Option String) (kv : String × JsValue)
    (hkv : kv ∈ updateMeSet hash name email username password) :
    kv.1 = "name" ∨ kv.1 = "email" ∨ kv.1 = "username" ∨ kv.1 = "password" := by
  unfold updateMeSet at hkv
  rcases List.mem_append.mp hkv with h | h
  · rcases List.mem_append.mp h with h | h
    · rcases List.mem_append.mp h with h | h
      · exact Or.inl (entryIf_key _ _ _ _ h)
      · exact Or.inr (Or.inl (entryIf_key _ _ _ _ h))
    · exact Or.inr (Or.inr (Or.inl (entryIf_key _ _ _ _ h)))
  · exact Or.inr (Or.inr (Or.inr (entryIf_key _ _ _ _ h)))

theorem updateUserSet_keys (hash : String → String)
    (name email username password : Option String) (isActive : JsValue)
    (kv : String × JsValue)
    (hkv : kv ∈ updateUserSet hash name email username password isActive) :
    kv.1 = "name" ∨ kv.1 = "email" ∨ kv.1 = "username" ∨ kv.1 = "isActive" ∨
      kv.1 = "password" := by
  unfold updateUserSet at hkv
  rcases List.mem_append.mp hkv with h | h
  · rcases List.mem_append.mp h with h | h
    · rcases List.mem_append.mp h with h | h
      · rcases List.mem_append.mp h with h | h
        · exact Or.inl (entryIf_key _ _ _ _ h)
        · exact Or.inr (Or.inl (entryIf_key _ _ _ _ h))
      · exact Or.inr (Or.inr (Or.inl (entryIf_key _ _ _ _ h)))
    · by_cases hu : (isActive == JsValue.undef) = true
      · rw [if_pos hu] at h
        cases h
      · rw [if_neg hu] at h
        exact Or.inr (Or.inr (Or.inr (Or.inl
          (congrArg Prod.fst (List.mem_singleton.mp h)))))
  · exact Or.inr (Or.inr (Or.inr (Or.inr (entryIf_key _ _ _ _ h))))

/-- C4: resourceId never changes once assigned: the schema declares it
immutable, and neither the `updates` document built by `updateMe` nor the
one built by `updateUser` ever contains the key "resourceId", so applying
either update set to a record leaves its resourceId bit-identical. -/
theorem resourceId_immutable_under_updates (hash : String → String)
    (name email username password : Option String) (isActive : JsValue)
    (u : UserRec) :
    resourceIdSchemaField.immutable = true ∧
    "resourceId" ∉ (updateMeSet hash name email username password).map Prod.fst ∧
    "resourceId" ∉
      (updateUserSet hash name email username password isActive).map Prod.fst ∧
    (applySet u (updateMeSet hash name email username password)).resourceId =
      u.resourceId ∧
    (applySet u
        (updateUserSet hash name email username password isActive)).resourceId =
      u.resourceId := by
  have hme : ∀ kv ∈ updateMeSet hash name email username password,
      ¬kv.1 = "resourceId" := by
    intro kv hkv
    rcases updateMeSet_keys hash name email username password kv hkv with
      h | h | h | h <;> simp [h]
  have huu : ∀ kv ∈ updateUserSet hash name email username password isActive,
      ¬kv.1 = "resourceId" := by
    intro kv hkv
    rcases updateUserSet_keys hash name email username password isActive kv hkv with
      h | h | h | h | h <;> simp [h]
  refine ⟨rfl, ?_, ?_, applySet_preserves_resourceId _ u hme,
    applySet_preserves_resourceId _ u huu⟩
  · intro hmem
    rcases List.mem_map.mp hmem with ⟨kv, hkv, hk⟩
    exact hme kv hkv hk
  · intro hmem
    rcases List.mem_map.mp hmem with ⟨kv, hkv, hk⟩
    exact huu kv hkv hk

/-- Witness for C4 on a concrete record and update set. -/
theorem resourceId_immutable_witness :
    (applySet sampleUser (updateMeSet (fun s => s) (some "New Name")
        (some "A@B.co") none (some "pw"))).resourceId = sampleUser.resourceId :=
  (resourceId_immutable_under_updates (fun s => s) (some "New Name")
    (some "A@B.co") none (some "pw") JsValue.undef sampleUser).2.2.2.1

theorem cacheLookup_invalidate (cache : List (String × TenantContext))
    (id : String) :
    cacheLookup (invalidateUserTenantContext cache id) id = none := by
  simp [cacheLookup, invalidateUserTenantContext, List.find?_eq_none,
    List.mem_filter]

theorem suffix_cons_of (a : DbEvent) {l₁ l₂ : List DbEvent}
    (h : List.IsSuffix l₁ l₂) : List.IsSuffix l₁ (a :: l₂) := by
  rcases h with ⟨t, ht⟩
  exact ⟨a :: t, by rw [List.cons_append, ht]⟩

theorem get_after_invalidate (store : String → Option TenantContext)
    (cache : List (String × TenantContext)) (id : String) (forceRefresh : Bool) :
    getUserTenantContext store (invalidateUserTenantContext cache id) id
      forceRefresh = (store id, true) := by
  unfold getUserTenantContext
  cases forceRefresh <;> simp [cacheLookup_invalidate]

theorem write_not_mem_lookups (x : String) (b1 b2 : Bool) :
    DbEvent.write x ∉
      [DbEvent.findOne] ++ (if b1 = true then [DbEvent.findOne] else []) ++
        (if b2 = true then [DbEvent.findOne] else []) := by
  cases b1 <;> cases b2 <;> simp

/-- C2: each of the three mutators of a tenant record — `updateMe`,
`updateUser` and `deleteUser` — follows its successful write with a call
to `invalidateUserTenantContext` on the mutated identity (in the effect
trace the invalidation directly follows the write, and a write only ever
appears so followed), and after an invalidation the next tenant-context
read always goes to the identity store, so it cannot be served the
pre-write cached value. -/
theorem mutators_invalidate_tenant_context
    (userId callerId callerRole id : String)
    (nm em un pw : Option String) (isA : JsValue) (hash : String → String)
    (currentUser target dtarget : Option UserRec) (eT uT : Bool)
    (w w2 : WriteOutcome) (delOk : Bool)
    (store : String → Option TenantContext)
    (cache : List (String × TenantContext)) (cid : String) (fr : Bool) :
    (DbEvent.write userId ∈ (updateMe userId nm em un pw hash currentUser eT uT w).2 →
      List.IsSuffix [DbEvent.write userId, DbEvent.invalidate userId]
        (updateMe userId nm em un pw hash currentUser eT uT w).2) ∧
    (DbEvent.write id ∈
        (updateUser callerId callerRole id nm em un pw isA hash target eT uT w2).2 →
      List.IsSuffix [DbEvent.write id, DbEvent.invalidate id]
        (updateUser callerId callerRole id nm em un pw isA hash target eT uT w2).2) ∧
    (DbEvent.deleteRec id ∈ (deleteUser callerId callerRole id dtarget delOk).2 →
      List.IsSuffix [DbEvent.deleteRec id, DbEvent.invalidate id]
        (deleteUser callerId callerRole id dtarget delOk).2) ∧
    getUserTenantContext store (invalidateUserTenantContext cache cid) cid fr =
      (store cid, true) := by
  refine ⟨?_, ?_, ?_, get_after_invalidate store cache cid fr⟩
  · intro h
    cases currentUser with
    | none => simp [updateMe] at h
    | some cu =>
      cases hem : strTruthy em <;> cases eT <;>
        cases hun : strTruthy un <;> cases uT <;> cases w <;>
        simp_all [updateMe] <;>
        first
          | exact List.suffix_refl _
          | exact suffix_cons_of _ (List.suffix_refl _)
          | exact suffix_cons_of _ (suffix_cons_of _ (List.suffix_refl _))
          | exact suffix_cons_of _ (suffix_cons_of _ (suffix_cons_of _
              (List.suffix_refl _)))
  · intro h
    cases target with
    | none => simp [updateUser] at h
    | some userToUpdate =>
      cases hadm : (callerRole == "admin" && strTruthy userToUpdate.adminId &&
          !(userToUpdate.adminId == some callerId)) with
      | true => simp [updateUser, hadm] at h
      | false =>
        cases husr : (callerRole == "user" && !(userToUpdate.id == callerId)) with
        | true => simp [updateUser, hadm, husr] at h
        | false =>
          simp only [updateUser] at h ⊢
          rw [hadm, husr] at h ⊢
          cases hem : strTruthy em <;> cases eT <;>
            cases hun : strTruthy un <;> cases uT <;> cases w2 <;>
            simp_all <;>
            first
          | exact List.suffix_refl _
          | exact suffix_cons_of _ (List.suffix_refl _)
          | exact suffix_cons_of _ (suffix_cons_of _ (List.suffix_refl _))
          | exact suffix_cons_of _ (suffix_cons_of _ (suffix_cons_of _
              (List.suffix_refl _)))
  · intro h
    cases hself : (callerId == id) with
    | true => simp [deleteUser, hself] at h
    | false =>
      cases dtarget with
      | none => simp [deleteUser, hself] at h
      | some user =>
        cases hadm : (callerRole == "admin" && strTruthy user.adminId &&
            !(user.adminId == some callerId)) with
        | true => simp [deleteUser, hself, hadm] at h
        | false =>
          cases husr : (callerRole == "user") with
          | true => simp [deleteUser, hself, hadm, husr] at h
          | false =>
            cases delOk with
            | false => simp [deleteUser, hself, hadm, husr] at h
            | true =>
              have hev : (deleteUser callerId callerRole id (some user) true).2 =
                  [DbEvent.findOne, DbEvent.deleteRec id, DbEvent.invalidate id] := by
                simp [deleteUser, hself, hadm, husr]
              rw [hev]
              exact suffix_cons_of _ (List.suffix_refl _)

/-- Witness for C2: a concrete successful `updateMe` write is directly
followed by the invalidation of the same identity. -/
theorem mutators_invalidate_witness :
    List.IsSuffix [DbEvent.write "u1", DbEvent.invalidate "u1"]
      ((updateMe "u1" (some "New") none none none (fun s => s) (some sampleUser)
          false false (WriteOutcome.updated sampleUser)).2) := by
  have h := (mutators_invalidate_tenant_context "u1" "a1" "admin" "u9" (some "New")
    none none none JsValue.undef (fun s => s) (some sampleUser) (some sampleUser)
    (some sampleUser) false false (WriteOutcome.updated sampleUser)
    (WriteOutcome.updated sampleUser) true (fun _ => none) [] "cid" false).1
  exact h (by decide)

/-- C6: when resource provisioning throws, both tenant-creation handlers
(public registration and admin-initiated creation) answer with an error
status and never save the user record; in particular, once the duplicate
checks pass, the response is exactly the 500 provisioning failure. -/
theorem provisioning_failure_persists_nothing (newId : String)
    (eE eU : Bool) (e : String) (saveO : SaveOutcome) (callerRole : String) :
    400 ≤ (registerUser newId eE eU (Except.error e) saveO).1.status ∧
    (∀ x, DbEvent.save x ∉ (registerUser newId eE eU (Except.error e) saveO).2) ∧
    400 ≤ (createUser callerRole newId eE eU (Except.error e) saveO).1.status ∧
    (∀ x, DbEvent.save x ∉
      (createUser callerRole newId eE eU (Except.error e) saveO).2) ∧
    (eE = false → eU = false →
      (registerUser newId eE eU (Except.error e) saveO).1 =
        { status := 500, error := some "Failed to provision user resources" }) := by
  refine ⟨?_, ?_, ?_, ?_, ?_⟩
  · cases eE <;> cases eU <;> simp [registerUser]
  · intro x
    cases eE <;> cases eU <;> simp [registerUser]
  · cases hc : (callerRole == "admin") <;> cases eE <;> cases eU <;>
      simp [createUser, hc]
  · intro x
    cases hc : (callerRole == "admin") <;> cases eE <;> cases eU <;>
      simp [createUser, hc]
  · intro h1 h2
    subst h1
    subst h2
    simp [registerUser]

/-- Witness for C6: a concrete provisioning failure during registration. -/
theorem provisioning_failure_witness :
    (registerUser "id9" false false (Except.error "derived path invalid")
        SaveOutcome.saved).1 =
      { status := 500, error := some "Failed to provision user resources" } :=
  (provisioning_failure_persists_nothing "id9" false false "derived path invalid"
    SaveOutcome.saved "admin").2.2.2.2 rfl rfl
